import Mathlib

/-!
Verification of the `binaryninjax` foreign-object proxy layer
(src/binaryninjax/__init__.py).

The module is a binding layer: it resolves mangled C++ symbol names in the
host binary at runtime, constructs callable bindings to the resolved
addresses, and wraps Qt widget instances so that private C++ methods and Qt
meta-object methods are callable from Python.

Shallow embedding conventions:
* The foreign host (the Binary Ninja binary plus the Qt toolkit) is an
  abstract `Host` record of pure functions: symbol resolution, foreign
  function application, `sip` pointer (un)wrapping, Qt reflection metadata,
  and host memory reads.
* Python values crossing the boundary are modelled by the inductive `PyVal`.
* Mutable module-level state (the `_CObjectProxy._c_funcptrs` class dict,
  the `_q_methods` / `_q_properties` class dicts, the module-level static
  method proxies `_new`, `_delete`, `_getThemeColor`, and the
  `_bn_new_ref_fns` dict) is threaded explicitly through each operation.
* Every observable interaction with the host (a `resolve_symbol` call, a
  foreign function invocation, a `QMetaObject.invokeMethod`, a call of a
  plain attribute of the wrapped Qt object) is recorded in a trace of
  `FEvent`s, in order.
* Python exceptions are modelled by `Except PyErr`; `AttributeError` and
  `TypeError` messages are reproduced verbatim.
* The `on_main_thread` decorator synchronously runs the wrapped function on
  the GUI main thread and returns its result (or re-raises); in this pure
  model it is the identity on the function and is elided.
-/

namespace Binaryninjax

/-- A host memory address (what `resolve_symbol` returns and what
`sip.unwrapinstance` produces). -/
abbrev Addr := Nat

/-- Python values that cross the proxy layer: `None`, `int`, `str`, `bool`,
a `ctypes.c_void_p` pointer, and opaque Python/Qt object identities. -/
inductive PyVal where
  | none
  | int (n : Int)
  | str (s : String)
  | bool (b : Bool)
  | ptr (a : Addr)
  | obj (id : Nat)
deriving DecidableEq, Repr

/-- Decidable equality for `Except`, so the model evaluates on closed
inputs. -/
instance exceptDecEq {e a : Type} [DecidableEq e] [DecidableEq a] :
    DecidableEq (Except e a) := fun x y =>
  match x, y with
  | .ok v, .ok w =>
    if h : v = w then isTrue (by rw [h]) else isFalse (by intro hc; cases hc; exact h rfl)
  | .error v, .error w =>
    if h : v = w then isTrue (by rw [h]) else isFalse (by intro hc; cases hc; exact h rfl)
  | .ok _, .error _ => isFalse (by intro hc; cases hc)
  | .error _, .ok _ => isFalse (by intro hc; cases hc)

/-- The foreign host: the closed Binary Ninja binary together with the Qt
toolkit and the `binaryninja` core API, as a record of pure functions.
The module under verification never inspects any of these; it only composes
them. -/
structure Host where
  /-- `binaryninjax._selfsym.resolve_symbol`: mangled name to address, or
  `none` when the symbol is not defined in the host binary. -/
  resolveSymbol : String → Option Addr
  /-- Application of the foreign function at an address to marshalled
  arguments (a `ctypes` call through a `CFUNCTYPE` signature). -/
  call : Addr → List PyVal → PyVal
  /-- `sip.unwrapinstance`: Qt object identity to C++ pointer. -/
  unwrap : Nat → Addr
  /-- `q_object.metaObject()`: the runtime meta-object of a Qt object. -/
  metaObjectOf : Nat → Nat
  /-- `QMetaObject.className()`. -/
  className : Nat → String
  /-- The list of meta-method names of a meta-object
  (`[str(mo.method(n).name()) for n in range(mo.methodCount())]`). -/
  methodNames : Nat → List String
  /-- The list of meta-property names of a meta-object. -/
  propertyNames : Nat → List String
  /-- `sip.wrapinstance(addr, QtCore.QMetaObject)`. -/
  wrapQMetaObject : Addr → Nat
  /-- `getattr(q_object, name)` on the wrapped Qt object itself. -/
  qattr : Nat → String → PyVal
  /-- Calling a plain attribute of the wrapped Qt object
  (`getattr(q_object, name)(*args)`). -/
  qcall : Nat → String → List PyVal → PyVal
  /-- Dereference of a `void**` in host memory
  (`c_cast(addr, CPOINTER(c_void_p)).contents`). -/
  memRead : Addr → Addr
  /-- `binaryninja.core.handle_of_type(value, c_type_name)`. -/
  handle_of_type : PyVal → String → PyVal
  /-- `bn.BinaryView(handle=h)`. -/
  mkBinaryView : PyVal → PyVal
  /-- The fresh `QtGui.QColor()` allocated by `getThemeColor`. -/
  newQColor : Nat

/-- `ctypes.sizeof(c_void_p)` on the (64-bit) host. -/
def sizeof_c_void_p : Nat := 8

/-- Observable events: a `resolve_symbol` call, a foreign function
invocation, a `QMetaObject.invokeMethod`, and a call of a plain attribute of
the wrapped Qt object. -/
inductive FEvent where
  | resolve (sym : String)
  | fcall (addr : Addr) (args : List PyVal)
  | qinvoke (metaObj : Nat) (obj : Nat) (method : String) (args : List PyVal)
  | qnative (obj : Nat) (method : String) (args : List PyVal)
deriving DecidableEq, Repr

/-- Python exceptions raised by the module. -/
inductive PyErr where
  | attributeError (msg : String)
  | typeError (msg : String)
deriving DecidableEq, Repr

/-- The mangled symbol name built by `_q_meta_object_for_class`:
`'_ZN{}{}16staticMetaObjectE'.format(len(name), name)`. -/
def mangleStaticMetaObject (name : String) : String :=
  "_ZN" ++ toString name.length ++ name ++ "16staticMetaObjectE"

/-- `_q_meta_object_for_class`: resolve the mangled `staticMetaObject`
symbol and wrap the address as a `QMetaObject`.  `sip.wrapinstance` requires
an address, so the result is `none` when resolution fails (in Python this
would raise at import time). -/
def q_meta_object_for_class (h : Host) (name : String) : Option Nat :=
  (h.resolveSymbol (mangleStaticMetaObject name)).map h.wrapQMetaObject

/-- `_CStaticMethodProxy`: a lazily-bound foreign static function.
`func?` is the `self._func` cell (`none` until the first successful call);
the `CFUNCTYPE` signature only governs marshalling and is absorbed into
`Host.call`. -/
structure CStaticMethodProxy where
  func_name : String
  func? : Option Addr
deriving DecidableEq, Repr

/-- `_CStaticMethodProxy.__call__`: on first use resolve the symbol (raising
`AttributeError` when undefined) and cache the bound function, then forward
the arguments to the foreign function unchanged. -/
def CStaticMethodProxy.call (h : Host) (p : CStaticMethodProxy) (args : List PyVal) :
    Except PyErr PyVal × CStaticMethodProxy × List FEvent :=
  match p.func? with
  | some a => (.ok (h.call a args), p, [.fcall a args])
  | Option.none =>
    match h.resolveSymbol p.func_name with
    | Option.none =>
        (.error (.attributeError ("Symbol " ++ p.func_name ++ " is not defined")),
         p, [.resolve p.func_name])
    | some a =>
        (.ok (h.call a args), { p with func? := some a },
         [.resolve p.func_name, .fcall a args])

/-- `_CMethodProxy`: a bound foreign method — a resolved function address
together with a stored `this` pointer. -/
structure CMethodProxy where
  func : Addr
  this_ptr : PyVal
deriving DecidableEq, Repr

/-- `_CMethodProxy.__call__`: `self._func(self._this_ptr, *args)` — the
stored `this` pointer followed by the arguments, forwarded unchanged. -/
def CMethodProxy.call (h : Host) (p : CMethodProxy) (args : List PyVal) :
    PyVal × List FEvent :=
  (h.call p.func (p.this_ptr :: args), [.fcall p.func (p.this_ptr :: args)])

/-- `_QMethodProxy`: an invoker for a Qt meta-method by name. -/
structure QMethodProxy where
  q_meta_object : Nat
  q_self : Nat
  name : String
deriving DecidableEq, Repr

/-- The values a proxy's `__getattr__` can produce (and `setattr` can store
in the instance dict): a bound C method, a Qt meta-method invoker, or a
plain attribute of the wrapped Qt object. -/
inductive AttrVal where
  | cmethod (p : CMethodProxy)
  | qmethod (p : QMethodProxy)
  | plain (v : PyVal)
deriving DecidableEq, Repr

/-- The class-level `_CObjectProxy._c_funcptrs` dict (shared by all
instances of all proxy classes): mangled name to resolved address. -/
abbrev FuncPtrCache := List (String × Addr)

/-- `_CObjectProxy`: wraps a C++ pointer together with a table `c_api`
mapping attribute names to mangled symbol names (the `CFUNCTYPE` signatures
are absorbed into `Host.call`).  `attrs` is the instance `__dict__`: entries
written by `setattr`, consulted by Python before `__getattr__` is invoked. -/
structure CObjectProxy where
  c_ptr : PyVal
  c_api : List (String × String)
  attrs : List (String × AttrVal)
deriving DecidableEq, Repr

/-- `setattr(self, attr, v)` on a proxy instance. -/
def CObjectProxy.setAttr (p : CObjectProxy) (attr : String) (v : AttrVal) :
    CObjectProxy :=
  { p with attrs := (attr, v) :: p.attrs }

/-- `_CObjectProxy.__getattr__`: look the name up in the C API table,
resolve its mangled symbol unless already in the shared `_c_funcptrs`
cache, build a `_CMethodProxy` bound to `self._c_ptr`, store it on the
instance, and return it; a name outside the table raises
`AttributeError`. -/
def CObjectProxy.getattrRaw (h : Host) (cache : FuncPtrCache)
    (p : CObjectProxy) (attr : String) :
    Except PyErr AttrVal × CObjectProxy × FuncPtrCache × List FEvent :=
  match p.c_api.lookup attr with
  | some func_name =>
    match cache.lookup func_name with
    | some func_addr =>
        let proxy := AttrVal.cmethod ⟨func_addr, p.c_ptr⟩
        (.ok proxy, p.setAttr attr proxy, cache, [])
    | Option.none =>
      match h.resolveSymbol func_name with
      | Option.none =>
          (.error (.attributeError ("Symbol " ++ func_name ++ " is not defined")),
           p, cache, [.resolve func_name])
      | some func_addr =>
          let proxy := AttrVal.cmethod ⟨func_addr, p.c_ptr⟩
          (.ok proxy, p.setAttr attr proxy,
           (func_name, func_addr) :: cache, [.resolve func_name])
  | Option.none =>
      (.error (.attributeError ("undefined method '" ++ attr ++ "'")),
       p, cache, [])

/-- Python attribute access `proxy.attr` on a `_CObjectProxy`: the instance
`__dict__` is consulted first; `__getattr__` only runs when the name is not
set on the instance. -/
def CObjectProxy.lookupAttr (h : Host) (cache : FuncPtrCache)
    (p : CObjectProxy) (attr : String) :
    Except PyErr AttrVal × CObjectProxy × FuncPtrCache × List FEvent :=
  match p.attrs.lookup attr with
  | some v => (.ok v, p, cache, [])
  | Option.none => p.getattrRaw h cache attr

/-- `proxy.attr(*args)` on a pure C object proxy.  Reachable states only
ever store `cmethod` values in a pure C proxy's instance dict, so the other
`AttrVal` shapes cannot arise here; they are mapped to a `TypeError` to
keep the function total. -/
def CObjectProxy.callMethod (h : Host) (cache : FuncPtrCache)
    (p : CObjectProxy) (attr : String) (args : List PyVal) :
    Except PyErr PyVal × CObjectProxy × FuncPtrCache × List FEvent :=
  match p.lookupAttr h cache attr with
  | (.error e, p', cache', tr) => (.error e, p', cache', tr)
  | (.ok (.cmethod m), p', cache', tr) =>
      let (r, tr2) := m.call h args
      (.ok r, p', cache', tr ++ tr2)
  | (.ok _, p', cache', tr) =>
      (.error (.typeError "object is not callable"), p', cache', tr)

/-- The class-level `_QObjectProxy._q_methods` (and `_q_properties`) dicts:
meta-object to its cached list of method (property) names. -/
abbrev QMethodsCache := List (Nat × List String)

/-- `_QObjectProxy`: a `_CObjectProxy` over `sip.unwrapinstance(q_object)`
that additionally knows the expected static meta-object and the wrapped Qt
object. -/
structure QObjectProxy where
  toC : CObjectProxy
  q_meta_object : Nat
  q_object : Nat
deriving DecidableEq, Repr

/-- `_QObjectProxy.__init__`: wrap `q_object`; if the runtime meta-object of
`q_object` differs from the expected static meta-object, raise `TypeError`
naming both class names (and fill no cache); otherwise memoise the
meta-object's method and property name lists in the class-level dicts. -/
def QObjectProxy.init (h : Host) (qm : QMethodsCache) (qp : QMethodsCache)
    (q_meta_object : Nat) (q_object : Nat) (c_api : List (String × String)) :
    Except PyErr QObjectProxy × QMethodsCache × QMethodsCache :=
  if q_meta_object ≠ h.metaObjectOf q_object then
    (.error (.typeError ("proxy for '" ++ h.className q_meta_object ++
       "' cannot be initialized from a pointer to '" ++
       h.className (h.metaObjectOf q_object) ++ "'")), qm, qp)
  else
    let qm' := if (qm.lookup q_meta_object).isSome then qm
               else (q_meta_object, h.methodNames q_meta_object) :: qm
    let qp' := if (qp.lookup q_meta_object).isSome then qp
               else (q_meta_object, h.propertyNames q_meta_object) :: qp
    (.ok { toC := { c_ptr := .ptr (h.unwrap q_object), c_api := c_api, attrs := [] },
           q_meta_object := q_meta_object, q_object := q_object }, qm', qp')

/-- `setattr` on a `_QObjectProxy` instance (the instance dict lives on the
underlying object). -/
def QObjectProxy.setAttr (p : QObjectProxy) (attr : String) (v : AttrVal) :
    QObjectProxy :=
  { p with toC := p.toC.setAttr attr v }

/-- `_QObjectProxy.__getattr__`: a Qt meta-method name yields a
`_QMethodProxy` (stored on the instance); else a C API name defers to
`_CObjectProxy.__getattr__`; else the attribute of the wrapped Qt object
itself is returned.  `self._q_methods[self._q_meta_object]` is read from the
class-level cache; `__init__` guarantees the entry is present (a missing
entry would be a `KeyError` in Python; `[]` here). -/
def QObjectProxy.getattrRaw (h : Host) (cache : FuncPtrCache)
    (qm : QMethodsCache) (p : QObjectProxy) (attr : String) :
    Except PyErr AttrVal × QObjectProxy × FuncPtrCache × List FEvent :=
  if attr ∈ (qm.lookup p.q_meta_object).getD [] then
    let proxy := AttrVal.qmethod ⟨p.q_meta_object, p.q_object, attr⟩
    (.ok proxy, p.setAttr attr proxy, cache, [])
  else if (p.toC.c_api.lookup attr).isSome then
    match p.toC.getattrRaw h cache attr with
    | (r, c', cache', tr) => (r, { p with toC := c' }, cache', tr)
  else
    (.ok (.plain (h.qattr p.q_object attr)), p, cache, [])

/-- Python attribute access `proxy.attr` on a `_QObjectProxy`: instance
`__dict__` first, then `__getattr__`. -/
def QObjectProxy.lookupAttr (h : Host) (cache : FuncPtrCache)
    (qm : QMethodsCache) (p : QObjectProxy) (attr : String) :
    Except PyErr AttrVal × QObjectProxy × FuncPtrCache × List FEvent :=
  match p.toC.attrs.lookup attr with
  | some v => (.ok v, p, cache, [])
  | Option.none => p.getattrRaw h cache qm attr

/-- `proxy.attr(*args)` on a `_QObjectProxy`: attribute access followed by a
call.  A `_CMethodProxy` forwards to the foreign function; a `_QMethodProxy`
performs `QMetaObject.invokeMethod` (whose Python `__call__` returns `None`);
a plain attribute of the wrapped Qt object is called on the host. -/
def QObjectProxy.callMethod (h : Host) (cache : FuncPtrCache)
    (qm : QMethodsCache) (p : QObjectProxy) (attr : String) (args : List PyVal) :
    Except PyErr PyVal × QObjectProxy × FuncPtrCache × List FEvent :=
  match p.lookupAttr h cache qm attr with
  | (.error e, p', cache', tr) => (.error e, p', cache', tr)
  | (.ok (.cmethod m), p', cache', tr) =>
      let (r, tr2) := m.call h args
      (.ok r, p', cache', tr ++ tr2)
  | (.ok (.qmethod m), p', cache', tr) =>
      (.ok PyVal.none, p', cache',
       tr ++ [.qinvoke m.q_meta_object m.q_self m.name args])
  | (.ok (.plain _), p', cache', tr) =>
      (.ok (h.qcall p.q_object attr args), p', cache',
       tr ++ [.qnative p.q_object attr args])

/-- The module-level static method proxies: `_new` (`operator new`,
`'_Znwm'`), `_delete` (`operator delete`, `'_ZdlPv'`) and `_getThemeColor`
(`'_Z13getThemeColor10ThemeColor'`), each with its lazily-bound function
cell. -/
structure Statics where
  newFn : CStaticMethodProxy
  deleteFn : CStaticMethodProxy
  getThemeColorFn : CStaticMethodProxy
deriving DecidableEq, Repr

/-- The statics as created at module import: no function bound yet. -/
def Statics.start : Statics :=
  { newFn := ⟨"_Znwm", Option.none⟩,
    deleteFn := ⟨"_ZdlPv", Option.none⟩,
    getThemeColorFn := ⟨"_Z13getThemeColor10ThemeColor", Option.none⟩ }

/-- `_QString._c_api`: the hand-bound `QString` constructor and
destructor. -/
def QString.c_api : List (String × String) :=
  [("QString", "_ZN7QStringC2EPKc"),
   ("_d_QString", "_ZN7QStringD2Ev")]

/-- A `_QString` instance: the ownership flag and the `_CObjectProxy` over
the native string. -/
structure QStringObj where
  owned : Bool
  c : CObjectProxy
deriving DecidableEq, Repr

/-- `_QString._pointer`: `self._c._c_ptr`. -/
def QStringObj.pointer (qs : QStringObj) : PyVal := qs.c.c_ptr

/-- `_QString.__init__`: a `c_void_p` wraps the existing native string
(not owned); `None` or a `str` allocates `sizeof(c_void_p)` bytes with
`_new`, runs the native constructor on the allocation, and marks the result
owned; anything else raises `TypeError`. -/
def QString.init (h : Host) (st : Statics) (cache : FuncPtrCache)
    (value : PyVal) :
    Except PyErr QStringObj × Statics × FuncPtrCache × List FEvent :=
  match value with
  | .ptr a =>
      (.ok { owned := false,
             c := { c_ptr := .ptr a, c_api := QString.c_api, attrs := [] } },
       st, cache, [])
  | .none | .str _ =>
    match st.newFn.call h [.int (Int.ofNat sizeof_c_void_p)] with
    | (.error e, new', tr1) => (.error e, { st with newFn := new' }, cache, tr1)
    | (.ok c_ptr, new', tr1) =>
      let st' : Statics := { st with newFn := new' }
      let c : CObjectProxy := { c_ptr := c_ptr, c_api := QString.c_api, attrs := [] }
      match c.callMethod h cache "QString" [value] with
      | (.error e, _, cache', tr2) => (.error e, st', cache', tr1 ++ tr2)
      | (.ok _, c', cache', tr2) =>
          (.ok { owned := true, c := c' }, st', cache', tr1 ++ tr2)
  | _ =>
      (.error (.typeError "QString can only be initialized with None, str, or a pointer"),
       st, cache, [])

/-- `_QString.__del__`: an owned string runs the native destructor
(`_d_QString`) and then frees the allocation with `_delete(self._pointer())`;
a non-owned string does nothing. -/
def QString.del (h : Host) (st : Statics) (cache : FuncPtrCache)
    (qs : QStringObj) :
    Except PyErr Unit × Statics × FuncPtrCache × List FEvent :=
  if qs.owned then
    match qs.c.callMethod h cache "_d_QString" [] with
    | (.error e, _, cache', tr1) => (.error e, st, cache', tr1)
    | (.ok _, c', cache', tr1) =>
      match st.deleteFn.call h [c'.c_ptr] with
      | (.error e, d', tr2) =>
          (.error e, { st with deleteFn := d' }, cache', tr1 ++ tr2)
      | (.ok _, d', tr2) =>
          (.ok (), { st with deleteFn := d' }, cache', tr1 ++ tr2)
  else
    (.ok (), st, cache, [])

/-- The argument adaptation performed by `getThemeColor` before forwarding:
the symbolic names `'address'` and `'symbol'` become the integers `0` and
`0x19`; every other value passes through unchanged. -/
def themeColorEncode (name : PyVal) : PyVal :=
  let name1 := if name = .str "address" then .int 0 else name
  if name1 = .str "symbol" then .int 0x19 else name1

/-- `getThemeColor`: map the symbolic names to integers, allocate a fresh
`QColor`, and call the foreign `getThemeColor` with the unwrapped `QColor`
pointer and the (possibly adapted) name; the `QColor` is returned. -/
def getThemeColor (h : Host) (st : Statics) (name : PyVal) :
    Except PyErr PyVal × Statics × List FEvent :=
  let name := if name = .str "address" then .int 0 else name
  let name := if name = .str "symbol" then .int 0x19 else name
  let q_color := h.newQColor
  match st.getThemeColorFn.call h [.ptr (h.unwrap q_color), name] with
  | (.error e, p', tr) => (.error e, { st with getThemeColorFn := p' }, tr)
  | (.ok _, p', tr) => (.ok (.obj q_color), { st with getThemeColorFn := p' }, tr)

/-- `MainWindow._c_api`. -/
def MainWindow.c_api : List (String × String) :=
  [("openFilename", "_ZN10MainWindow12openFilenameERK7QString"),
   ("openUrl", "_ZN10MainWindow7openUrlERK4QUrl"),
   ("getCurrentView", "_ZN10MainWindow14getCurrentViewEv")]

/-- A `MainWindow` wrapper: its `q` proxy. -/
structure MainWindow where
  q : QObjectProxy
deriving DecidableEq, Repr

/-- `MainWindow.closeTab`: `self.q.closeTab()`. -/
def MainWindow.closeTab (h : Host) (cache : FuncPtrCache) (qm : QMethodsCache)
    (w : MainWindow) :
    Except PyErr PyVal × MainWindow × FuncPtrCache × List FEvent :=
  match w.q.callMethod h cache qm "closeTab" [] with
  | (r, q', cache', tr) => (r, { q := q' }, cache', tr)

/-- `MainWindow.closeAll` (documented as closing all tabs): its body is
`self.q.closeTab()`. -/
def MainWindow.closeAll (h : Host) (cache : FuncPtrCache) (qm : QMethodsCache)
    (w : MainWindow) :
    Except PyErr PyVal × MainWindow × FuncPtrCache × List FEvent :=
  match w.q.callMethod h cache qm "closeTab" [] with
  | (r, q', cache', tr) => (r, { q := q' }, cache', tr)

/-- `ViewFrame._c_api`. -/
def ViewFrame.c_api : List (String × String) :=
  [("back", "_ZN9ViewFrame4backEv"),
   ("forward", "_ZN9ViewFrame7forwardEv"),
   ("setViewType", "_ZN9ViewFrame11setViewTypeERK7QString"),
   ("getCurrentView", "_ZN9ViewFrame14getCurrentViewEv")]

/-- A `ViewFrame` wrapper: its `q` proxy. -/
structure ViewFrame where
  q : QObjectProxy
deriving DecidableEq, Repr

/-- `ViewFrame.setViewType`: build a `_QString` from
`binary_view_type + ":" + disasm_view_type`, call `self.q.setViewType` with
its pointer, and turn the integer result into a boolean via `!= 0`. -/
def ViewFrame.setViewType (h : Host) (st : Statics) (cache : FuncPtrCache)
    (qm : QMethodsCache) (vf : ViewFrame)
    (binary_view_type disasm_view_type : String) :
    Except PyErr Bool × Statics × ViewFrame × FuncPtrCache × List FEvent :=
  match QString.init h st cache (.str (binary_view_type ++ ":" ++ disasm_view_type)) with
  | (.error e, st', cache', tr1) => (.error e, st', vf, cache', tr1)
  | (.ok q_ident, st', cache', tr1) =>
    match vf.q.callMethod h cache' qm "setViewType" [q_ident.pointer] with
    | (.error e, q', cache'', tr2) =>
        (.error e, st', { q := q' }, cache'', tr1 ++ tr2)
    | (.ok r, q', cache'', tr2) =>
        (.ok (r != PyVal.int 0), st', { q := q' }, cache'', tr1 ++ tr2)

/-- `HexEditor._c_api`. -/
def HexEditor.c_api : List (String × String) :=
  [("getData", "_ZN9HexEditor7getDataEv")]

/-- `DisassemblyView._c_api`. -/
def DisassemblyView.c_api : List (String × String) :=
  [("getData", "_ZN15DisassemblyView7getDataEv")]

/-- `StringsView._c_api`. -/
def StringsView.c_api : List (String × String) :=
  [("getData", "_ZN11StringsView7getDataEv"),
   ("navigate", "_ZN11StringsView8navigateEm")]

/-- `LinearView._c_api`. -/
def LinearView.c_api : List (String × String) :=
  [("getData", "_ZN10LinearView7getDataEv")]

/-- `TypeView._c_api`. -/
def TypeView.c_api : List (String × String) :=
  [("getData", "_ZN10TypeView7getDataEv")]

/-- The module-level `_bn_new_ref_fns` dict: `new_ref` symbol name to its
`_CStaticMethodProxy` (whose bound-function cell mutates on first call). -/
abbrev BnRefFns := List (String × CStaticMethodProxy)

/-- The address stored in a `c_void_p` result; `none` for a value Python
could not use in pointer arithmetic. -/
def PyVal.asAddr : PyVal → Option Addr
  | .ptr a => some a
  | _ => Option.none

/-- `_from_bn_smart_ptr`: fetch (or create) the static proxy for `new_ref`
from `_bn_new_ref_fns`, read the wrapped object pointer `m_object` at
`ptr + sizeof(c_void_p) * 2` (the layout of `CoreRefCountObject` is
`void* vtbl; int m_refs; T* m_object`), obtain a new reference through the
`new_ref` foreign function, and wrap the result with
`bnc.handle_of_type`. -/
def from_bn_smart_ptr (h : Host) (refs : BnRefFns) (ptr : Addr)
    (c_type : String) (new_ref : String) :
    Except PyErr PyVal × BnRefFns × List FEvent :=
  let fn := match refs.lookup new_ref with
            | some f => f
            | Option.none => ⟨new_ref, Option.none⟩
  let c_object := h.memRead (ptr + sizeof_c_void_p * 2)
  match fn.call h [.ptr c_object] with
  | (.error e, fn', tr) => (.error e, (new_ref, fn') :: refs, tr)
  | (.ok r, fn', tr) => (.ok (h.handle_of_type r c_type), (new_ref, fn') :: refs, tr)

/-- `_binary_view_from_cxx_ref`:
`bn.BinaryView(handle=_from_bn_smart_ptr(ptr, bnc.BNBinaryView,
'BNNewViewReference'))`. -/
def binary_view_from_cxx_ref (h : Host) (refs : BnRefFns) (ptr : Addr) :
    Except PyErr PyVal × BnRefFns × List FEvent :=
  match from_bn_smart_ptr h refs ptr "BNBinaryView" "BNNewViewReference" with
  | (.error e, refs', tr) => (.error e, refs', tr)
  | (.ok hdl, refs', tr) => (.ok (h.mkBinaryView hdl), refs', tr)

/-- `getBinaryView` as defined identically on `HexEditor`,
`DisassemblyView`, `StringsView`, `LinearView` and `TypeView`:
`_binary_view_from_cxx_ref(self.q.getData())`.  A non-pointer `getData`
result would fail at the pointer arithmetic inside `_from_bn_smart_ptr`. -/
def View.getBinaryView (h : Host) (cache : FuncPtrCache) (qm : QMethodsCache)
    (refs : BnRefFns) (v : QObjectProxy) :
    Except PyErr PyVal × QObjectProxy × FuncPtrCache × BnRefFns × List FEvent :=
  match v.callMethod h cache qm "getData" [] with
  | (.error e, v', cache', tr1) => (.error e, v', cache', refs, tr1)
  | (.ok r, v', cache', tr1) =>
    match r.asAddr with
    | Option.none =>
        (.error (.typeError "unsupported operand type for pointer arithmetic"),
         v', cache', refs, tr1)
    | some d =>
      match binary_view_from_cxx_ref h refs d with
      | (re, refs', tr2) => (re, v', cache', refs', tr1 ++ tr2)

/-- The static meta-object used by the `MainWindow` wrapper class. -/
def MainWindow.q_meta_object (h : Host) : Option Nat :=
  q_meta_object_for_class h "MainWindow"

/-- The static meta-object used by the `ViewFrame` wrapper class. -/
def ViewFrame.q_meta_object (h : Host) : Option Nat :=
  q_meta_object_for_class h "ViewFrame"

/-- The static meta-object used by the `InfoPanel` wrapper class. -/
def InfoPanel.q_meta_object (h : Host) : Option Nat :=
  q_meta_object_for_class h "InfoPanel"

/-- The static meta-object used by the `HexEditor` wrapper class. -/
def HexEditor.q_meta_object (h : Host) : Option Nat :=
  q_meta_object_for_class h "HexEditor"

/-- The static meta-object used by the `DisassemblyView` wrapper class. -/
def DisassemblyView.q_meta_object (h : Host) : Option Nat :=
  q_meta_object_for_class h "DisassemblyView"

/-- The static meta-object used by the `StringsView` wrapper class. -/
def StringsView.q_meta_object (h : Host) : Option Nat :=
  q_meta_object_for_class h "StringsView"

/-- The static meta-object used by the `LinearView` wrapper class. -/
def LinearView.q_meta_object (h : Host) : Option Nat :=
  q_meta_object_for_class h "LinearView"

/-- The static meta-object used by the `TypeView` wrapper class. -/
def TypeView.q_meta_object (h : Host) : Option Nat :=
  q_meta_object_for_class h "TypeView"

/-- The static meta-object used by the `CrossReferenceItemDelegate` wrapper
class. -/
def CrossReferenceItemDelegate.q_meta_object (h : Host) : Option Nat :=
  q_meta_object_for_class h "CrossReferenceItemDelegate"

/-- One attribute access on some proxy instance (a `_CObjectProxy` or a
`_QObjectProxy`); all instances share the class-level `_c_funcptrs`
cache. -/
inductive LookupOp where
  | c (p : CObjectProxy) (attr : String)
  | q (qm : QMethodsCache) (p : QObjectProxy) (attr : String)

/-- Run a sequence of attribute accesses on arbitrary proxy instances,
threading the shared `_c_funcptrs` cache and concatenating the event
traces. -/
def runLookups (h : Host) : FuncPtrCache → List LookupOp → FuncPtrCache × List FEvent
  | cache, [] => (cache, [])
  | cache, LookupOp.c p a :: rest =>
      let s := p.lookupAttr h cache a
      let r := runLookups h s.2.2.1 rest
      (r.1, s.2.2.2 ++ r.2)
  | cache, LookupOp.q qm p a :: rest =>
      let s := p.lookupAttr h cache qm a
      let r := runLookups h s.2.2.1 rest
      (r.1, s.2.2.2 ++ r.2)

/-- One shared-cache transition: the cache and trace produced by a single
attribute access. -/
def LookupOp.step (h : Host) (cache : FuncPtrCache) :
    LookupOp → FuncPtrCache × List FEvent
  | .c p a => ((p.lookupAttr h cache a).2.2.1, (p.lookupAttr h cache a).2.2.2)
  | .q qm p a => ((p.lookupAttr h cache qm a).2.2.1, (p.lookupAttr h cache qm a).2.2.2)

/-- Coherence of the shared `_c_funcptrs` cache with the host: every cached
address is what `resolve_symbol` returns for that name.  Every reachable
cache state has this property, since entries are only ever written from a
successful resolution. -/
def CacheCoherent (h : Host) (cache : FuncPtrCache) : Prop :=
  ∀ s a, cache.lookup s = some a → h.resolveSymbol s = some a

/-- A concrete host for evaluating the model on closed inputs: every symbol
resolves to address 1, every foreign call returns the integer 0, and every
meta-object has the single meta-method `closeTab`. -/
def hostA : Host where
  resolveSymbol := fun _ => some 1
  call := fun _ _ => PyVal.int 0
  unwrap := fun n => n
  metaObjectOf := fun _ => 0
  className := fun n => toString n
  methodNames := fun _ => ["closeTab"]
  propertyNames := fun _ => []
  wrapQMetaObject := fun a => a
  qattr := fun _ _ => PyVal.none
  qcall := fun _ _ _ => PyVal.none
  memRead := fun a => a + 1
  handle_of_type := fun v _ => v
  mkBinaryView := fun v => v
  newQColor := 42

/-- A concrete host on which no symbol resolves. -/
def hostNone : Host := { hostA with resolveSymbol := fun _ => Option.none }

/-- A concrete host whose foreign calls all return the pointer `100`. -/
def hostPtr : Host := { hostA with call := fun _ _ => PyVal.ptr 100 }

/-- A concrete C object proxy with a one-entry C API table. -/
def cproxy0 : CObjectProxy :=
  { c_ptr := .ptr 7, c_api := [("m", "SYM")], attrs := [] }

/-- A concrete Qt object proxy over the `MainWindow` C API. -/
def qproxy0 : QObjectProxy :=
  { toC := { c_ptr := .ptr 5, c_api := MainWindow.c_api, attrs := [] },
    q_meta_object := 0, q_object := 5 }

/-- A concrete Qt object proxy over the `HexEditor` C API. -/
def vproxy0 : QObjectProxy :=
  { toC := { c_ptr := .ptr 5, c_api := HexEditor.c_api, attrs := [] },
    q_meta_object := 0, q_object := 5 }

/-- Concrete module statics whose lazily-bound functions are already
bound. -/
def statics1 : Statics :=
  { newFn := ⟨"_Znwm", some 1⟩, deleteFn := ⟨"_ZdlPv", some 1⟩,
    getThemeColorFn := ⟨"_Z13getThemeColor10ThemeColor", some 1⟩ }

/-- A concrete shared cache holding the `QString` constructor and
destructor. -/
def qcache1 : FuncPtrCache := [("_ZN7QStringC2EPKc", 2), ("_ZN7QStringD2Ev", 3)]

/-! ## Theorems -/

/-- C6: for every class name `S`, the static meta-object used by the
corresponding proxy class is obtained by resolving, at runtime, the mangled
symbol built exactly as `"_ZN"`, the decimal length of `S`, `S`, and
`"16staticMetaObjectE"`, wrapping the resolved address as a `QMetaObject`;
instantiated at each of the nine wrapper classes with the fully computed
symbol string. -/
theorem C6_static_meta_object_mangling :
    (∀ (h : Host) (name : String),
      q_meta_object_for_class h name =
        (h.resolveSymbol ("_ZN" ++ toString name.length ++ name ++
          "16staticMetaObjectE")).map h.wrapQMetaObject)
    ∧ (∀ h : Host, MainWindow.q_meta_object h =
        (h.resolveSymbol "_ZN10MainWindow16staticMetaObjectE").map h.wrapQMetaObject)
    ∧ (∀ h : Host, ViewFrame.q_meta_object h =
        (h.resolveSymbol "_ZN9ViewFrame16staticMetaObjectE").map h.wrapQMetaObject)
    ∧ (∀ h : Host, InfoPanel.q_meta_object h =
        (h.resolveSymbol "_ZN9InfoPanel16staticMetaObjectE").map h.wrapQMetaObject)
    ∧ (∀ h : Host, HexEditor.q_meta_object h =
        (h.resolveSymbol "_ZN9HexEditor16staticMetaObjectE").map h.wrapQMetaObject)
    ∧ (∀ h : Host, DisassemblyView.q_meta_object h =
        (h.resolveSymbol "_ZN15DisassemblyView16staticMetaObjectE").map h.wrapQMetaObject)
    ∧ (∀ h : Host, StringsView.q_meta_object h =
        (h.resolveSymbol "_ZN11StringsView16staticMetaObjectE").map h.wrapQMetaObject)
    ∧ (∀ h : Host, LinearView.q_meta_object h =
        (h.resolveSymbol "_ZN10LinearView16staticMetaObjectE").map h.wrapQMetaObject)
    ∧ (∀ h : Host, TypeView.q_meta_object h =
        (h.resolveSymbol "_ZN8TypeView16staticMetaObjectE").map h.wrapQMetaObject)
    ∧ (∀ h : Host, CrossReferenceItemDelegate.q_meta_object h =
        (h.resolveSymbol "_ZN26CrossReferenceItemDelegate16staticMetaObjectE").map
          h.wrapQMetaObject) :=
  ⟨fun _ _ => rfl, fun _ => rfl, fun _ => rfl, fun _ => rfl, fun _ => rfl,
   fun _ => rfl, fun _ => rfl, fun _ => rfl, fun _ => rfl, fun _ => rfl⟩

/-- C1: on a `_QObjectProxy`, for an attribute name not already set on the
instance, `__getattr__` resolves in order: a Qt meta-method name yields a
`_QMethodProxy`; otherwise a key of the C API table yields a C method
binding (from the shared cache or by fresh symbol resolution); otherwise the
attribute of the wrapped Qt object itself is returned. -/
theorem C1_qobject_getattr_resolution_order
    (h : Host) (cache : FuncPtrCache) (qm : QMethodsCache)
    (p : QObjectProxy) (attr : String)
    (hinst : p.toC.attrs.lookup attr = Option.none) :
    (attr ∈ (qm.lookup p.q_meta_object).getD [] →
       p.lookupAttr h cache qm attr =
         (.ok (.qmethod ⟨p.q_meta_object, p.q_object, attr⟩),
          p.setAttr attr (.qmethod ⟨p.q_meta_object, p.q_object, attr⟩), cache, []))
    ∧ (∀ fn a, attr ∉ (qm.lookup p.q_meta_object).getD [] →
        p.toC.c_api.lookup attr = some fn → cache.lookup fn = some a →
        p.lookupAttr h cache qm attr =
          (.ok (.cmethod ⟨a, p.toC.c_ptr⟩),
           p.setAttr attr (.cmethod ⟨a, p.toC.c_ptr⟩), cache, []))
    ∧ (∀ fn a, attr ∉ (qm.lookup p.q_meta_object).getD [] →
        p.toC.c_api.lookup attr = some fn → cache.lookup fn = Option.none →
        h.resolveSymbol fn = some a →
        p.lookupAttr h cache qm attr =
          (.ok (.cmethod ⟨a, p.toC.c_ptr⟩),
           p.setAttr attr (.cmethod ⟨a, p.toC.c_ptr⟩),
           (fn, a) :: cache, [.resolve fn]))
    ∧ (attr ∉ (qm.lookup p.q_meta_object).getD [] →
        p.toC.c_api.lookup attr = Option.none →
        p.lookupAttr h cache qm attr =
          (.ok (.plain (h.qattr p.q_object attr)), p, cache, [])) := by
  refine ⟨fun hq => ?_, fun fn a hq hc hcache => ?_,
          fun fn a hq hc hcache hres => ?_, fun hq hc => ?_⟩ <;>
    simp [QObjectProxy.lookupAttr, QObjectProxy.getattrRaw, CObjectProxy.getattrRaw,
          QObjectProxy.setAttr, CObjectProxy.setAttr, hinst, *]

/-- Witness for C1: a concrete meta-method lookup on `qproxy0`. -/
theorem C1_qobject_getattr_resolution_order_witness :
    QObjectProxy.lookupAttr hostA [] [(0, ["closeTab"])] qproxy0 "closeTab" =
      (.ok (.qmethod ⟨0, 5, "closeTab"⟩),
       qproxy0.setAttr "closeTab" (.qmethod ⟨0, 5, "closeTab"⟩), [], []) :=
  (C1_qobject_getattr_resolution_order hostA [] [(0, ["closeTab"])] qproxy0
    "closeTab" (by decide)).1 (by decide)

/-- C3: a call of a `_CStaticMethodProxy` whose symbol does not resolve, and
an attribute lookup on a `_CObjectProxy` whose mangled symbol does not
resolve, raise `AttributeError` naming the undefined symbol while leaving
the proxy, the shared cache, and the foreign host untouched (the trace
holds the failed `resolve_symbol` call and no foreign invocation); a lookup
of a name outside the C API table likewise raises `AttributeError`. -/
theorem C3_unresolved_symbol_raises_attribute_error
    (h : Host) (cache : FuncPtrCache) :
    (∀ (p : CStaticMethodProxy) (args : List PyVal),
       p.func? = Option.none → h.resolveSymbol p.func_name = Option.none →
       p.call h args =
         (.error (.attributeError ("Symbol " ++ p.func_name ++ " is not defined")),
          p, [.resolve p.func_name]))
    ∧ (∀ (p : CObjectProxy) (attr fn : String),
       p.attrs.lookup attr = Option.none →
       p.c_api.lookup attr = some fn →
       cache.lookup fn = Option.none → h.resolveSymbol fn = Option.none →
       p.lookupAttr h cache attr =
         (.error (.attributeError ("Symbol " ++ fn ++ " is not defined")),
          p, cache, [.resolve fn]))
    ∧ (∀ (p : CObjectProxy) (attr : String),
       p.attrs.lookup attr = Option.none →
       p.c_api.lookup attr = Option.none →
       p.lookupAttr h cache attr =
         (.error (.attributeError ("undefined method '" ++ attr ++ "'")),
          p, cache, [])) := by
  refine ⟨fun p args h1 h2 => ?_, fun p attr fn h1 h2 h3 h4 => ?_,
          fun p attr h1 h2 => ?_⟩ <;>
    simp [CStaticMethodProxy.call, CObjectProxy.lookupAttr, CObjectProxy.getattrRaw, *]

/-- Witness for C3: the three failure shapes on concrete proxies over the
host that resolves nothing. -/
theorem C3_unresolved_symbol_raises_attribute_error_witness :
    (CStaticMethodProxy.call hostNone ⟨"S", Option.none⟩ [] =
      (.error (.attributeError "Symbol S is not defined"),
       ⟨"S", Option.none⟩, [.resolve "S"]))
    ∧ (CObjectProxy.lookupAttr hostNone [] cproxy0 "m" =
      (.error (.attributeError "Symbol SYM is not defined"),
       cproxy0, [], [.resolve "SYM"]))
    ∧ (CObjectProxy.lookupAttr hostNone [] cproxy0 "zzz" =
      (.error (.attributeError "undefined method 'zzz'"), cproxy0, [], [])) :=
  ⟨(C3_unresolved_symbol_raises_attribute_error hostNone []).1
     ⟨"S", Option.none⟩ [] rfl rfl,
   (C3_unresolved_symbol_raises_attribute_error hostNone []).2.1
     cproxy0 "m" "SYM" (by decide) (by decide) rfl rfl,
   (C3_unresolved_symbol_raises_attribute_error hostNone []).2.2
     cproxy0 "zzz" (by decide) (by decide)⟩

/-- C8: constructing a `_QObjectProxy` from a Qt object whose runtime
meta-object differs from the expected static meta-object raises `TypeError`
naming both class names and produces no proxy (and fills no cache); when
the meta-objects agree, construction succeeds and the proxy wraps exactly
the given object. -/
theorem C8_init_checks_meta_object
    (h : Host) (qm qp : QMethodsCache) (mo qo : Nat)
    (c_api : List (String × String)) :
    (mo ≠ h.metaObjectOf qo →
       QObjectProxy.init h qm qp mo qo c_api =
         (.error (.typeError ("proxy for '" ++ h.className mo ++
            "' cannot be initialized from a pointer to '" ++
            h.className (h.metaObjectOf qo) ++ "'")), qm, qp))
    ∧ (mo = h.metaObjectOf qo →
       (QObjectProxy.init h qm qp mo qo c_api).1 =
         .ok { toC := { c_ptr := .ptr (h.unwrap qo), c_api := c_api, attrs := [] },
               q_meta_object := mo, q_object := qo }) := by
  constructor <;> intro hmo <;> simp [QObjectProxy.init, hmo]

/-- Witness for C8: the mismatch raises naming both classes; the match
wraps the given object. -/
theorem C8_init_checks_meta_object_witness :
    (QObjectProxy.init hostA [] [] 1 5 [] =
      (.error (.typeError "proxy for '1' cannot be initialized from a pointer to '0'"),
       [], []))
    ∧ ((QObjectProxy.init hostA [] [] 0 5 MainWindow.c_api).1 =
       .ok { toC := { c_ptr := .ptr 5, c_api := MainWindow.c_api, attrs := [] },
             q_meta_object := 0, q_object := 5 }) :=
  ⟨by
     have := (C8_init_checks_meta_object hostA [] [] 1 5 []).1 (by decide)
     simpa [hostA] using this,
   by
     have := (C8_init_checks_meta_object hostA [] [] 0 5 MainWindow.c_api).2 rfl
     simpa [hostA] using this⟩

/-- C9: `MainWindow.closeAll` and `MainWindow.closeTab` have the same body,
`self.q.closeTab()`, so they are equal as embedded functions; when
`closeTab` is a Qt meta-method of the window's meta-object, the single
effect of either is `QMetaObject.invokeMethod` of `closeTab` on the wrapped
window object. -/
theorem C9_closeAll_equals_closeTab :
    (∀ (h : Host) (cache : FuncPtrCache) (qm : QMethodsCache) (w : MainWindow),
       MainWindow.closeAll h cache qm w = MainWindow.closeTab h cache qm w)
    ∧ (∀ (h : Host) (cache : FuncPtrCache) (qm : QMethodsCache) (w : MainWindow),
       w.q.toC.attrs.lookup "closeTab" = Option.none →
       "closeTab" ∈ (qm.lookup w.q.q_meta_object).getD [] →
       MainWindow.closeAll h cache qm w =
         (.ok PyVal.none,
          { q := w.q.setAttr "closeTab"
              (.qmethod ⟨w.q.q_meta_object, w.q.q_object, "closeTab"⟩) },
          cache,
          [.qinvoke w.q.q_meta_object w.q.q_object "closeTab" []])) := by
  constructor
  · intro h cache qm w; rfl
  · intro h cache qm w hinst hq
    simp [MainWindow.closeAll, QObjectProxy.callMethod, QObjectProxy.lookupAttr,
          QObjectProxy.getattrRaw, QObjectProxy.setAttr, hinst, hq]

/-- Witness for C9: the common effect on a concrete window. -/
theorem C9_closeAll_equals_closeTab_witness :
    MainWindow.closeAll hostA [] [(0, ["closeTab"])] ⟨qproxy0⟩ =
      (.ok PyVal.none,
       ⟨qproxy0.setAttr "closeTab" (.qmethod ⟨0, 5, "closeTab"⟩)⟩,
       [], [.qinvoke 0 5 "closeTab" []]) :=
  C9_closeAll_equals_closeTab.2 hostA [] [(0, ["closeTab"])] ⟨qproxy0⟩
    (by decide) (by decide)


/-! ### Shared helper lemmas -/

theorem lookup_cons_isSome {b : Type} (k s : String) (v : b) (l : List (String × b))
    (hs : (l.lookup s).isSome) : (((k, v) :: l).lookup s).isSome := by
  by_cases hk : s = k
  · subst hk; simp [List.lookup]
  · have hb : (s == k) = false := beq_eq_false_iff_ne.mpr hk
    simpa [List.lookup, hb] using hs

theorem CObjectProxy.getattrRaw_stores (h : Host) (cache : FuncPtrCache)
    (p : CObjectProxy) (attr : String) (v : AttrVal) (p' : CObjectProxy)
    (cache' : FuncPtrCache) (tr : List FEvent)
    (hs : p.getattrRaw h cache attr = (.ok v, p', cache', tr)) :
    p'.attrs.lookup attr = some v := by
  unfold CObjectProxy.getattrRaw at hs
  split at hs
  · split at hs
    · simp only [Prod.mk.injEq, Except.ok.injEq] at hs
      obtain ⟨rfl, rfl, rfl, rfl⟩ := hs
      simp [CObjectProxy.setAttr, List.lookup]
    · split at hs
      · simp at hs
      · simp only [Prod.mk.injEq, Except.ok.injEq] at hs
        obtain ⟨rfl, rfl, rfl, rfl⟩ := hs
        simp [CObjectProxy.setAttr, List.lookup]
  · simp at hs

theorem cproxy_lookupAttr_idem (h : Host) (cache cache' : FuncPtrCache)
    (p p' : CObjectProxy) (attr : String) (v : AttrVal) (tr : List FEvent)
    (hs : p.lookupAttr h cache attr = (.ok v, p', cache', tr)) :
    p'.lookupAttr h cache' attr = (.ok v, p', cache', []) := by
  have hstore : p'.attrs.lookup attr = some v := by
    unfold CObjectProxy.lookupAttr at hs
    split at hs
    · rename_i v0 heq
      simp only [Prod.mk.injEq, Except.ok.injEq] at hs
      obtain ⟨rfl, rfl, rfl, rfl⟩ := hs
      exact heq
    · exact CObjectProxy.getattrRaw_stores h cache p attr v p' cache' tr hs
  simp [CObjectProxy.lookupAttr, hstore]

theorem qproxy_lookupAttr_idem (h : Host) (cache cache' : FuncPtrCache)
    (qm : QMethodsCache) (p p' : QObjectProxy) (attr : String) (v : AttrVal)
    (tr : List FEvent)
    (hs : p.lookupAttr h cache qm attr = (.ok v, p', cache', tr)) :
    p'.lookupAttr h cache' qm attr = (.ok v, p', cache', []) := by
  unfold QObjectProxy.lookupAttr at hs
  split at hs
  · rename_i v0 heq
    simp only [Prod.mk.injEq, Except.ok.injEq] at hs
    obtain ⟨rfl, rfl, rfl, rfl⟩ := hs
    simp [QObjectProxy.lookupAttr, heq]
  · rename_i heq
    unfold QObjectProxy.getattrRaw at hs
    by_cases hq : attr ∈ (qm.lookup p.q_meta_object).getD []
    · rw [if_pos hq] at hs
      simp only [Prod.mk.injEq, Except.ok.injEq] at hs
      obtain ⟨rfl, rfl, rfl, rfl⟩ := hs
      simp [QObjectProxy.lookupAttr, QObjectProxy.setAttr, CObjectProxy.setAttr,
            List.lookup]
    · rw [if_neg hq] at hs
      by_cases hc : (p.toC.c_api.lookup attr).isSome
      · rw [if_pos hc] at hs
        rcases hE : p.toC.getattrRaw h cache attr with ⟨r, c2, cache2, tr2⟩
        rw [hE] at hs
        simp only [Prod.mk.injEq] at hs
        obtain ⟨rfl, rfl, rfl, rfl⟩ := hs
        have hst := CObjectProxy.getattrRaw_stores h cache p.toC attr v c2 cache2 tr2 hE
        simp [QObjectProxy.lookupAttr, hst]
      · rw [if_neg hc] at hs
        simp only [Prod.mk.injEq, Except.ok.injEq] at hs
        obtain ⟨rfl, rfl, rfl, rfl⟩ := hs
        simp [QObjectProxy.lookupAttr, QObjectProxy.getattrRaw, heq, hq, hc]

theorem CObjectProxy.getattrRaw_cache_facts (h : Host) (cache : FuncPtrCache)
    (p : CObjectProxy) (attr s : String) :
    ((cache.lookup s).isSome →
       (((p.getattrRaw h cache attr).2.2.1).lookup s).isSome
       ∧ ((p.getattrRaw h cache attr).2.2.2).count (.resolve s) = 0)
    ∧ ((p.getattrRaw h cache attr).2.2.2).count (.resolve s) ≤ 1
    ∧ ((h.resolveSymbol s).isSome →
       FEvent.resolve s ∈ (p.getattrRaw h cache attr).2.2.2 →
       (((p.getattrRaw h cache attr).2.2.1).lookup s).isSome) := by
  unfold CObjectProxy.getattrRaw
  split
  · split
    · simp
    · rename_i fn hca hdup hcl
      split
      · rename_i hrs
        refine ⟨fun hsx => ⟨hsx, ?_⟩, ?_, fun hres hmem => ?_⟩
        · have hne : s ≠ fn := by
            intro he; subst he; rw [hcl] at hsx; simp at hsx
          simp [List.count_cons, hne, Ne.symm hne]
        · simpa using List.count_le_length (FEvent.resolve s) [FEvent.resolve fn]
        · simp at hmem
          subst hmem
          rw [hrs] at hres
          simp at hres
      · rename_i a hrs
        refine ⟨fun hsx => ⟨?_, ?_⟩, ?_, fun hres hmem => ?_⟩
        · exact lookup_cons_isSome fn s a cache hsx
        · have hne : s ≠ fn := by
            intro he; subst he; rw [hcl] at hsx; simp at hsx
          simp [List.count_cons, hne, Ne.symm hne]
        · simpa using List.count_le_length (FEvent.resolve s) [FEvent.resolve fn]
        · simp at hmem
          subst hmem
          simp [List.lookup]
  · simp

theorem cproxy_lookupAttr_cache_facts (h : Host) (cache : FuncPtrCache)
    (p : CObjectProxy) (attr s : String) :
    ((cache.lookup s).isSome →
       (((p.lookupAttr h cache attr).2.2.1).lookup s).isSome
       ∧ ((p.lookupAttr h cache attr).2.2.2).count (.resolve s) = 0)
    ∧ ((p.lookupAttr h cache attr).2.2.2).count (.resolve s) ≤ 1
    ∧ ((h.resolveSymbol s).isSome →
       FEvent.resolve s ∈ (p.lookupAttr h cache attr).2.2.2 →
       (((p.lookupAttr h cache attr).2.2.1).lookup s).isSome) := by
  unfold CObjectProxy.lookupAttr
  split
  · simp
  · exact CObjectProxy.getattrRaw_cache_facts h cache p attr s

theorem qproxy_lookupAttr_cache_facts (h : Host) (cache : FuncPtrCache)
    (qm : QMethodsCache) (p : QObjectProxy) (attr s : String) :
    ((cache.lookup s).isSome →
       (((p.lookupAttr h cache qm attr).2.2.1).lookup s).isSome
       ∧ ((p.lookupAttr h cache qm attr).2.2.2).count (.resolve s) = 0)
    ∧ ((p.lookupAttr h cache qm attr).2.2.2).count (.resolve s) ≤ 1
    ∧ ((h.resolveSymbol s).isSome →
       FEvent.resolve s ∈ (p.lookupAttr h cache qm attr).2.2.2 →
       (((p.lookupAttr h cache qm attr).2.2.1).lookup s).isSome) := by
  unfold QObjectProxy.lookupAttr
  split
  · simp
  · unfold QObjectProxy.getattrRaw
    split
    · simp
    · split
      · have hfacts := CObjectProxy.getattrRaw_cache_facts h cache p.toC attr s
        rcases hE : p.toC.getattrRaw h cache attr with ⟨r, c2, cache2, tr2⟩
        rw [hE] at hfacts
        simpa using hfacts
      · simp

theorem LookupOp.step_facts (h : Host) (cache : FuncPtrCache) (op : LookupOp)
    (s : String) :
    ((cache.lookup s).isSome →
       (((op.step h cache).1).lookup s).isSome
       ∧ ((op.step h cache).2).count (.resolve s) = 0)
    ∧ ((op.step h cache).2).count (.resolve s) ≤ 1
    ∧ ((h.resolveSymbol s).isSome →
       FEvent.resolve s ∈ (op.step h cache).2 →
       (((op.step h cache).1).lookup s).isSome) := by
  cases op with
  | c p a => exact cproxy_lookupAttr_cache_facts h cache p a s
  | q qm p a => exact qproxy_lookupAttr_cache_facts h cache qm p a s

theorem runLookups_cons (h : Host) (cache : FuncPtrCache) (op : LookupOp)
    (rest : List LookupOp) :
    runLookups h cache (op :: rest) =
      ((runLookups h (op.step h cache).1 rest).1,
       (op.step h cache).2 ++ (runLookups h (op.step h cache).1 rest).2) := by
  cases op <;> rfl

theorem runLookups_resolve_at_most_once (h : Host) (s : String)
    (hres : (h.resolveSymbol s).isSome) (ops : List LookupOp) :
    ∀ cache : FuncPtrCache,
      ((runLookups h cache ops).2.count (.resolve s) ≤ 1)
      ∧ ((cache.lookup s).isSome →
         (runLookups h cache ops).2.count (.resolve s) = 0) := by
  induction ops with
  | nil => intro cache; simp [runLookups]
  | cons op rest ih =>
    intro cache
    have hstep := LookupOp.step_facts h cache op s
    rw [runLookups_cons]
    simp only [List.count_append]
    constructor
    · by_cases hm : FEvent.resolve s ∈ (op.step h cache).2
      · have h1 := hstep.2.2 hres hm
        have h2 := (ih (op.step h cache).1).2 h1
        have h3 := hstep.2.1
        omega
      · have h0 : (op.step h cache).2.count (.resolve s) = 0 :=
          List.count_eq_zero.mpr hm
        have h1 := (ih (op.step h cache).1).1
        omega
    · intro hc
      obtain ⟨h1, h2⟩ := hstep.1 hc
      have h3 := (ih (op.step h cache).1).2 h1
      omega

theorem cacheCoherent_cons (h : Host) (cache : FuncPtrCache) (fn : String)
    (a : Addr) (hcoh : CacheCoherent h cache) (hrs : h.resolveSymbol fn = some a) :
    CacheCoherent h ((fn, a) :: cache) := by
  intro s b hb
  by_cases hs : s = fn
  · subst hs
    simp [List.lookup] at hb
    subst hb
    exact hrs
  · have hbf : (s == fn) = false := beq_eq_false_iff_ne.mpr hs
    simp [List.lookup, hbf] at hb
    exact hcoh s b hb

theorem hostA_small_cache_coherent : CacheCoherent hostA [("SYM", 1)] := by
  intro s a hb
  by_cases hs : s = "SYM"
  · subst hs
    simp [List.lookup] at hb
    subst hb
    rfl
  · have hbf : (s == "SYM") = false := beq_eq_false_iff_ne.mpr hs
    simp [List.lookup, hbf] at hb

theorem getBinaryView_spec (h : Host) (cache : FuncPtrCache) (qm : QMethodsCache)
    (refs : BnRefFns) (v : QObjectProxy) (sym : String) (ga ra d : Addr)
    (hcapi : v.toC.c_api.lookup "getData" = some sym)
    (hattrs : v.toC.attrs.lookup "getData" = Option.none)
    (hq : "getData" ∉ (qm.lookup v.q_meta_object).getD [])
    (hcache : cache.lookup sym = some ga)
    (hcall : h.call ga [v.toC.c_ptr] = .ptr d)
    (hrefs : refs.lookup "BNNewViewReference" = Option.none)
    (hres : h.resolveSymbol "BNNewViewReference" = some ra) :
    View.getBinaryView h cache qm refs v =
      (.ok (h.mkBinaryView (h.handle_of_type
         (h.call ra [.ptr (h.memRead (d + sizeof_c_void_p * 2))]) "BNBinaryView")),
       v.setAttr "getData" (.cmethod ⟨ga, v.toC.c_ptr⟩),
       cache,
       ("BNNewViewReference", ⟨"BNNewViewReference", some ra⟩) :: refs,
       [.fcall ga [v.toC.c_ptr],
        .resolve "BNNewViewReference",
        .fcall ra [.ptr (h.memRead (d + sizeof_c_void_p * 2))]]) := by
  simp [View.getBinaryView, QObjectProxy.callMethod, QObjectProxy.lookupAttr,
        QObjectProxy.getattrRaw, CObjectProxy.getattrRaw, CObjectProxy.setAttr,
        QObjectProxy.setAttr, CMethodProxy.call, binary_view_from_cxx_ref,
        from_bn_smart_ptr, CStaticMethodProxy.call, PyVal.asAddr,
        hcapi, hattrs, hq, hcache, hcall, hrefs, hres]


/-- C7: a successful attribute lookup on a `_CObjectProxy` or a
`_QObjectProxy` stores the produced proxy object on the instance, so every
later lookup of the same name on that instance returns the identical proxy
object with no further state change and no further host interaction; and
across any sequence of lookups on arbitrary instances sharing the
class-level `_c_funcptrs` cache, each resolvable mangled symbol is resolved
at most once. -/
theorem C7_lookup_idempotent_resolve_once :
    (∀ (h : Host) (cache cache' : FuncPtrCache) (p p' : CObjectProxy)
       (attr : String) (v : AttrVal) (tr : List FEvent),
       p.lookupAttr h cache attr = (.ok v, p', cache', tr) →
       p'.lookupAttr h cache' attr = (.ok v, p', cache', []))
    ∧ (∀ (h : Host) (cache cache' : FuncPtrCache) (qm : QMethodsCache)
       (p p' : QObjectProxy) (attr : String) (v : AttrVal) (tr : List FEvent),
       p.lookupAttr h cache qm attr = (.ok v, p', cache', tr) →
       p'.lookupAttr h cache' qm attr = (.ok v, p', cache', []))
    ∧ (∀ (h : Host) (s : String), (h.resolveSymbol s).isSome →
       ∀ (cache : FuncPtrCache) (ops : List LookupOp),
         (runLookups h cache ops).2.count (.resolve s) ≤ 1) :=
  ⟨fun h c c' p p' a v tr hs => cproxy_lookupAttr_idem h c c' p p' a v tr hs,
   fun h c c' qm p p' a v tr hs => qproxy_lookupAttr_idem h c c' qm p p' a v tr hs,
   fun h s hres cache ops => (runLookups_resolve_at_most_once h s hres ops cache).1⟩

/-- Witness for C7: a repeated concrete lookup returns the stored proxy,
and a concrete two-lookup sequence resolves `SYM` at most once. -/
theorem C7_lookup_idempotent_resolve_once_witness :
    (CObjectProxy.lookupAttr hostA [("SYM", 1)]
        (cproxy0.setAttr "m" (.cmethod ⟨1, .ptr 7⟩)) "m" =
      (.ok (.cmethod ⟨1, .ptr 7⟩), cproxy0.setAttr "m" (.cmethod ⟨1, .ptr 7⟩),
       [("SYM", 1)], []))
    ∧ (runLookups hostA [] [.c cproxy0 "m", .c cproxy0 "m"]).2.count
        (.resolve "SYM") ≤ 1 :=
  ⟨C7_lookup_idempotent_resolve_once.1 hostA [] [("SYM", 1)] cproxy0 _ "m" _
     [.resolve "SYM"] (by decide),
   C7_lookup_idempotent_resolve_once.2.2 hostA "SYM" (by decide) [] _⟩

/-- Counterexample for C4: `_CObjectProxy.__getattr__` both consults and
writes the module-level `_c_funcptrs` cache.  On a host where `SYM` does
not resolve, the very same lookup with the same arguments raises
`AttributeError` from an empty cache but succeeds from a cache recording an
earlier resolution — so an operation's result does not depend only on its
arguments and the host; and a successful lookup from an empty cache stores
a new module-level entry. -/
theorem C4_counterexample_module_state :
    (CObjectProxy.getattrRaw hostNone [] cproxy0 "m").1 ≠
      (CObjectProxy.getattrRaw hostNone [("SYM", 7)] cproxy0 "m").1
    ∧ (CObjectProxy.getattrRaw hostA [] cproxy0 "m").2.2.1 = [("SYM", 1)] := by
  decide

/-- C4 as amended: the module does keep module-level mutable state, but the
`_c_funcptrs` state is pure memoization: every reachable cache is coherent
with the host (each entry equals the host's resolution), lookups preserve
coherence, and from any coherent cache a lookup returns the same result and
the same updated proxy as from an empty cache — so results depend only on
the arguments and the foreign host. -/
theorem C4_amended_cache_is_memoization
    (h : Host) (cache : FuncPtrCache) (p : CObjectProxy) (attr : String)
    (hcoh : CacheCoherent h cache) :
    ((p.getattrRaw h cache attr).1 = (p.getattrRaw h [] attr).1
     ∧ (p.getattrRaw h cache attr).2.1 = (p.getattrRaw h [] attr).2.1)
    ∧ CacheCoherent h ((p.getattrRaw h cache attr).2.2.1) := by
  rcases hca : p.c_api.lookup attr with _ | fn
  · constructor
    · constructor <;> simp [CObjectProxy.getattrRaw, hca]
    · simpa [CObjectProxy.getattrRaw, hca] using hcoh
  · rcases hcl : cache.lookup fn with _ | a
    · rcases hrs : h.resolveSymbol fn with _ | a
      · constructor
        · constructor <;> simp [CObjectProxy.getattrRaw, hca, hcl, hrs, List.lookup]
        · simpa [CObjectProxy.getattrRaw, hca, hcl, hrs] using hcoh
      · constructor
        · constructor <;> simp [CObjectProxy.getattrRaw, hca, hcl, hrs, List.lookup]
        · have hcc : (p.getattrRaw h cache attr).2.2.1 = (fn, a) :: cache := by
            simp [CObjectProxy.getattrRaw, hca, hcl, hrs]
          rw [hcc]
          exact cacheCoherent_cons h cache fn a hcoh hrs
    · have hres := hcoh fn a hcl
      constructor
      · constructor <;> simp [CObjectProxy.getattrRaw, hca, hcl, hres, List.lookup]
      · have hcc : (p.getattrRaw h cache attr).2.2.1 = cache := by
          simp [CObjectProxy.getattrRaw, hca, hcl]
        rw [hcc]
        exact hcoh

/-- Witness for C4 (amended): a concrete coherent one-entry cache gives the
same lookup result as the empty cache. -/
theorem C4_amended_cache_is_memoization_witness :
    (CObjectProxy.getattrRaw hostA [("SYM", 1)] cproxy0 "m").1 =
      (CObjectProxy.getattrRaw hostA [] cproxy0 "m").1
    ∧ (CObjectProxy.getattrRaw hostA [("SYM", 1)] cproxy0 "m").2.1 =
      (CObjectProxy.getattrRaw hostA [] cproxy0 "m").2.1 :=
  (C4_amended_cache_is_memoization hostA [("SYM", 1)] cproxy0 "m"
    hostA_small_cache_coherent).1

/-- Counterexample for C2: `getThemeColor` transforms its argument before
forwarding — called with the symbolic name `'address'`, the foreign
function receives the integer `0`, not the given argument. -/
theorem C2_counterexample_argument_adaptation :
    (getThemeColor hostA Statics.start (.str "address")).2.2 =
      [.resolve "_Z13getThemeColor10ThemeColor", .fcall 1 [.ptr 42, .int 0]]
    ∧ PyVal.int 0 ≠ PyVal.str "address" := by decide

/-- C2 as amended: a bound C method proxy forwards its call unchanged — the
result is the foreign function applied to the stored `this` pointer
followed by the arguments — but some public wrappers adapt their arguments
before forwarding: `getThemeColor` maps the names `'address'` and
`'symbol'` to the integers `0` and `0x19`, and `ViewFrame.setViewType`
forwards a `QString` built from `binary_view_type + ":" + disasm_view_type`
and converts the integer result with `!= 0`; neither performs any domain
computation beyond this adaptation. -/
theorem C2_amended_forwarding :
    (∀ (h : Host) (p : CMethodProxy) (args : List PyVal),
       p.call h args = (h.call p.func (p.this_ptr :: args),
                        [.fcall p.func (p.this_ptr :: args)]))
    ∧ (∀ (h : Host) (st : Statics) (name : PyVal) (a : Addr),
       st.getThemeColorFn.func? = some a →
       getThemeColor h st name =
         (.ok (.obj h.newQColor), st,
          [.fcall a [.ptr (h.unwrap h.newQColor), themeColorEncode name]]))
    ∧ (∀ (h : Host) (st : Statics) (cache : FuncPtrCache) (qm : QMethodsCache)
        (vf : ViewFrame) (b d : String) (na ca sa : Addr),
       st.newFn.func? = some na →
       cache.lookup "_ZN7QStringC2EPKc" = some ca →
       cache.lookup "_ZN9ViewFrame11setViewTypeERK7QString" = some sa →
       vf.q.toC.c_api = ViewFrame.c_api →
       vf.q.toC.attrs.lookup "setViewType" = Option.none →
       "setViewType" ∉ (qm.lookup vf.q.q_meta_object).getD [] →
       ViewFrame.setViewType h st cache qm vf b d =
         (.ok (h.call sa [vf.q.toC.c_ptr, h.call na [.int 8]] != PyVal.int 0),
          st,
          { q := vf.q.setAttr "setViewType" (.cmethod ⟨sa, vf.q.toC.c_ptr⟩) },
          cache,
          [.fcall na [.int 8],
           .fcall ca [h.call na [.int 8], .str (b ++ ":" ++ d)],
           .fcall sa [vf.q.toC.c_ptr, h.call na [.int 8]]])) := by
  refine ⟨fun h p args => rfl, fun h st name a hfn => ?_, ?_⟩
  · simp [getThemeColor, CStaticMethodProxy.call, themeColorEncode, hfn]
  · intro h st cache qm vf b d na ca sa hn hc hsv hcapi hattrs hq
    simp [ViewFrame.setViewType, QString.init, CStaticMethodProxy.call,
          CObjectProxy.callMethod, CObjectProxy.lookupAttr, CObjectProxy.getattrRaw,
          CObjectProxy.setAttr, CMethodProxy.call, QString.c_api,
          QObjectProxy.callMethod, QObjectProxy.lookupAttr, QObjectProxy.getattrRaw,
          QObjectProxy.setAttr, List.lookup, hn, hc, hsv, hcapi, hattrs, hq,
          ViewFrame.c_api, QStringObj.pointer, sizeof_c_void_p]

/-- Witness for C2 (amended): `getThemeColor` on a concrete host with a
bound function forwards the encoded name. -/
theorem C2_amended_forwarding_witness :
    getThemeColor hostA statics1 (.str "address") =
      (.ok (.obj 42), statics1, [.fcall 1 [.ptr 42, .int 0]]) :=
  C2_amended_forwarding.2.1 hostA statics1 (.str "address") 1 rfl

/-- C10: `_QString` construction is total over exactly three input shapes
and tracks ownership: a `c_void_p` wraps the existing native string without
taking ownership (no allocation, no foreign call); `None` or a `str`
allocates `sizeof(c_void_p)` bytes with `operator new`, runs the native
constructor on the allocation and the value, and marks the result owned;
destruction of an owned string runs the native destructor and frees the
allocation with `operator delete` (and of a non-owned string does nothing);
any other input raises `TypeError` with nothing allocated. -/
theorem C10_qstring_construction_ownership
    (h : Host) (st : Statics) (cache : FuncPtrCache) :
    (∀ a : Addr, QString.init h st cache (.ptr a) =
       (.ok { owned := false,
              c := { c_ptr := .ptr a, c_api := QString.c_api, attrs := [] } },
        st, cache, []))
    ∧ (∀ (v : PyVal) (na ca : Addr), (v = PyVal.none ∨ ∃ s, v = PyVal.str s) →
        st.newFn.func? = some na →
        cache.lookup "_ZN7QStringC2EPKc" = some ca →
        QString.init h st cache v =
          (.ok { owned := true,
                 c := { c_ptr := h.call na [.int 8],
                        c_api := QString.c_api,
                        attrs := [("QString", .cmethod ⟨ca, h.call na [.int 8]⟩)] } },
           st, cache,
           [.fcall na [.int 8], .fcall ca [h.call na [.int 8], v]]))
    ∧ (∀ (qs : QStringObj) (da dla : Addr), qs.owned = true →
        qs.c.c_api = QString.c_api →
        qs.c.attrs.lookup "_d_QString" = Option.none →
        cache.lookup "_ZN7QStringD2Ev" = some da →
        st.deleteFn.func? = some dla →
        QString.del h st cache qs =
          (.ok (), st, cache,
           [.fcall da [qs.c.c_ptr], .fcall dla [qs.c.c_ptr]]))
    ∧ (∀ qs : QStringObj, qs.owned = false →
        QString.del h st cache qs = (.ok (), st, cache, []))
    ∧ (∀ n : Int, QString.init h st cache (.int n) =
        (.error (.typeError "QString can only be initialized with None, str, or a pointer"),
         st, cache, []))
    ∧ (∀ b : Bool, QString.init h st cache (.bool b) =
        (.error (.typeError "QString can only be initialized with None, str, or a pointer"),
         st, cache, []))
    ∧ (∀ i : Nat, QString.init h st cache (.obj i) =
        (.error (.typeError "QString can only be initialized with None, str, or a pointer"),
         st, cache, [])) := by
  refine ⟨fun a => rfl, fun v na ca hv hn hc => ?_,
          fun qs da dla ho hcapi hattrs hcd hdel => ?_, fun qs ho => ?_,
          fun n => rfl, fun b => rfl, fun i => rfl⟩
  · rcases hv with rfl | ⟨s, rfl⟩ <;>
      simp [QString.init, CStaticMethodProxy.call, CObjectProxy.callMethod,
            CObjectProxy.lookupAttr, CObjectProxy.getattrRaw, CObjectProxy.setAttr,
            CMethodProxy.call, QString.c_api, List.lookup, hn, hc, sizeof_c_void_p]
  · simp [QString.del, ho, CObjectProxy.callMethod, CObjectProxy.lookupAttr,
          CObjectProxy.getattrRaw, CObjectProxy.setAttr, CMethodProxy.call,
          CStaticMethodProxy.call, QString.c_api, List.lookup, hcapi, hattrs,
          hcd, hdel]
  · simp [QString.del, ho]

/-- Witness for C10: the four construction/destruction shapes on concrete
inputs. -/
theorem C10_qstring_construction_ownership_witness :
    (QString.init hostA statics1 qcache1 (.ptr 9) =
      (.ok { owned := false,
             c := { c_ptr := .ptr 9, c_api := QString.c_api, attrs := [] } },
       statics1, qcache1, []))
    ∧ (QString.init hostA statics1 qcache1 (.str "x") =
      (.ok { owned := true,
             c := { c_ptr := .int 0, c_api := QString.c_api,
                    attrs := [("QString", .cmethod ⟨2, .int 0⟩)] } },
       statics1, qcache1, [.fcall 1 [.int 8], .fcall 2 [.int 0, .str "x"]]))
    ∧ (QString.del hostA statics1 qcache1
        { owned := true,
          c := { c_ptr := .int 0, c_api := QString.c_api, attrs := [] } } =
      (.ok (), statics1, qcache1, [.fcall 3 [.int 0], .fcall 1 [.int 0]]))
    ∧ (QString.del hostA statics1 qcache1
        { owned := false,
          c := { c_ptr := .ptr 9, c_api := QString.c_api, attrs := [] } } =
      (.ok (), statics1, qcache1, []))
    ∧ (QString.init hostA statics1 qcache1 (.int 5) =
      (.error (.typeError "QString can only be initialized with None, str, or a pointer"),
       statics1, qcache1, [])) :=
  ⟨(C10_qstring_construction_ownership hostA statics1 qcache1).1 9,
   (C10_qstring_construction_ownership hostA statics1 qcache1).2.1
     (.str "x") 1 2 (Or.inr ⟨"x", rfl⟩) rfl (by decide),
   (C10_qstring_construction_ownership hostA statics1 qcache1).2.2.1
     _ 3 1 rfl rfl (by decide) (by decide) rfl,
   (C10_qstring_construction_ownership hostA statics1 qcache1).2.2.2.1 _ rfl,
   (C10_qstring_construction_ownership hostA statics1 qcache1).2.2.2.2.1 5⟩

/-- C5: for each of `HexEditor`, `DisassemblyView`, `StringsView`,
`LinearView` and `TypeView`, `getBinaryView` takes the pointer returned by
the view's `getData`, reads the wrapped object pointer at offset two
pointer sizes (past the vtable pointer and the reference count), obtains a
new reference to it through the `BNNewViewReference` foreign function, and
wraps the result as a `BinaryView` handle of C type `BNBinaryView`. -/
theorem C5_getBinaryView_smart_pointer :
    ∀ pr ∈ [(HexEditor.c_api, "_ZN9HexEditor7getDataEv"),
            (DisassemblyView.c_api, "_ZN15DisassemblyView7getDataEv"),
            (StringsView.c_api, "_ZN11StringsView7getDataEv"),
            (LinearView.c_api, "_ZN10LinearView7getDataEv"),
            (TypeView.c_api, "_ZN10TypeView7getDataEv")],
      pr.1.lookup "getData" = some pr.2
      ∧ ∀ (h : Host) (cache : FuncPtrCache) (qm : QMethodsCache) (refs : BnRefFns)
          (v : QObjectProxy) (ga ra d : Addr),
        v.toC.c_api = pr.1 →
        v.toC.attrs.lookup "getData" = Option.none →
        "getData" ∉ (qm.lookup v.q_meta_object).getD [] →
        cache.lookup pr.2 = some ga →
        h.call ga [v.toC.c_ptr] = .ptr d →
        refs.lookup "BNNewViewReference" = Option.none →
        h.resolveSymbol "BNNewViewReference" = some ra →
        View.getBinaryView h cache qm refs v =
          (.ok (h.mkBinaryView (h.handle_of_type
             (h.call ra [.ptr (h.memRead (d + sizeof_c_void_p * 2))]) "BNBinaryView")),
           v.setAttr "getData" (.cmethod ⟨ga, v.toC.c_ptr⟩),
           cache,
           ("BNNewViewReference", ⟨"BNNewViewReference", some ra⟩) :: refs,
           [.fcall ga [v.toC.c_ptr],
            .resolve "BNNewViewReference",
            .fcall ra [.ptr (h.memRead (d + sizeof_c_void_p * 2))]]) := by
  intro pr hpr
  have key : pr.1.lookup "getData" = some pr.2 := by
    simp only [List.mem_cons, List.not_mem_nil, or_false] at hpr
    rcases hpr with rfl | rfl | rfl | rfl | rfl <;> decide
  exact ⟨key, fun h cache qm refs v ga ra d h1 h2 h3 h4 h5 h6 h7 =>
    getBinaryView_spec h cache qm refs v pr.2 ga ra d
      (by rw [h1]; exact key) h2 h3 h4 h5 h6 h7⟩

/-- Witness for C5: a concrete `HexEditor` proxy on a pointer-returning
host; `getData` yields the pointer `100`, the wrapped object pointer is
read at `100 + 16`, and the new reference is taken through
`BNNewViewReference`. -/
theorem C5_getBinaryView_smart_pointer_witness :
    View.getBinaryView hostPtr [("_ZN9HexEditor7getDataEv", 1)] [] [] vproxy0 =
      (.ok (.ptr 100),
       vproxy0.setAttr "getData" (.cmethod ⟨1, .ptr 5⟩),
       [("_ZN9HexEditor7getDataEv", 1)],
       [("BNNewViewReference", ⟨"BNNewViewReference", some 1⟩)],
       [.fcall 1 [.ptr 5],
        .resolve "BNNewViewReference",
        .fcall 1 [.ptr 117]]) :=
  (C5_getBinaryView_smart_pointer (HexEditor.c_api, "_ZN9HexEditor7getDataEv")
      (by decide)).2
    hostPtr [("_ZN9HexEditor7getDataEv", 1)] [] [] vproxy0 1 1 100
    rfl (by decide) (by decide) (by decide) rfl rfl rfl

end Binaryninjax
